import Mathlib

/-!
# Verification of the `interconnect` federation protocol core and its game/chat examples

Shallow embedding of:
* `crates/interconnect-core/src/identity.rs` (Identity parse / format / errors),
* `crates/interconnect-core/src/transfer.rs` and `message.rs` (Passport, Transfer,
  envelope messages and their serde-derived JSON shape),
* `examples/game/src/{protocol,world,server}.rs` (game passport, import policy,
  world state, auth loop and intent handler),
* `examples/chat/src/{protocol,server}.rs` (chat auth-time display-name choice).

Modelling conventions:
* Rust `String` is Lean `String`; `Vec<u8>` passport bytes are `List Nat`.
* `u32` / `u64` fields are `Nat` (no claim exercises overflow).
* `f32` coordinates are modelled over `ℚ` (exact arithmetic; the claims only
  exercise small integral values, where `f32` arithmetic is exact as well).
  The `PickUp` distance test `sqrt(dx²+dy²) < 2.0` is embedded as
  `dx²+dy² < 4`, which is equivalent for nonnegative reals.
* `HashMap<Identity, Player>` is an association list with first-match lookup
  and key-replacing insert, mirroring the map operations the server uses.
* `serde_json` en/decoding of passport *bytes* (an external library) is a
  parameter `decode : List Nat → Option _` of the auth loop; the serde-derived
  JSON shape of the core envelope types is embedded explicitly from the
  `#[serde(...)]` attributes on the Rust types.
-/

namespace Interconnect

/-! ## Identity (`crates/interconnect-core/src/identity.rs`) -/

/-- An identity in the form `scheme:payload` (struct `Identity`). -/
structure Identity where
  scheme : String
  payload : String
deriving DecidableEq, Repr

/-- Rust `Identity::new` — stores both fields unchanged, no validation. -/
def Identity.new (scheme payload : String) : Identity :=
  { scheme := scheme, payload := payload }

/-- Rust `Identity::local`. -/
def Identity.localId (name : String) : Identity :=
  Identity.new "local" name

/-- Rust `Identity::url`. -/
def Identity.url (user_at_server : String) : Identity :=
  Identity.new "url" user_at_server

/-- Rust `Identity::is_local`. -/
def Identity.is_local (x : Identity) : Bool :=
  x.scheme == "local"

/-- Rust `impl fmt::Display for Identity`: `write!(f, "{}:{}", scheme, payload)`. -/
def Identity.toText (x : Identity) : String :=
  x.scheme ++ ":" ++ x.payload

/-- Rust `enum IdentityParseError` (variants `MissingColon(String)`, `EmptyScheme`). -/
inductive IdentityParseError where
  | missingColon (s : String)
  | emptyScheme
deriving DecidableEq, Repr

instance {ε α : Type _} [DecidableEq ε] [DecidableEq α] : DecidableEq (Except ε α) := fun x y =>
  match x, y with
  | .ok a, .ok b =>
    if h : a = b then isTrue (by rw [h]) else isFalse (by intro hc; cases hc; exact h rfl)
  | .error e, .error f =>
    if h : e = f then isTrue (by rw [h]) else isFalse (by intro hc; cases hc; exact h rfl)
  | .ok _, .error _ => isFalse (by intro hc; cases hc)
  | .error _, .ok _ => isFalse (by intro hc; cases hc)

/-- Rust `str::split_once(':')`: split at the first `':'`, `None` if absent. -/
def splitOnceColon : List Char → Option (List Char × List Char)
  | [] => none
  | c :: rest =>
    if c = ':' then some ([], rest)
    else (splitOnceColon rest).map fun p => (c :: p.1, p.2)

/-- Rust `impl FromStr for Identity`: split at the first `':'` (else
`MissingColon`), reject an empty scheme (`EmptyScheme`). -/
def Identity.fromStr (s : String) : Except IdentityParseError Identity :=
  match splitOnceColon s.data with
  | none => .error (.missingColon s)
  | some (scheme, payload) =>
    if scheme.isEmpty then .error .emptyScheme
    else .ok { scheme := ⟨scheme⟩, payload := ⟨payload⟩ }

/-- A "valid" identity: non-empty scheme containing no `':'` — exactly the
identities whose canonical text form parses back to themselves. -/
def Identity.valid (x : Identity) : Prop :=
  x.scheme ≠ "" ∧ ':' ∉ x.scheme.data

instance (x : Identity) : Decidable x.valid := by
  unfold Identity.valid; infer_instance

theorem string_data_append (a b : String) : (a ++ b).data = a.data ++ b.data := rfl

theorem toText_data (x : Identity) :
    x.toText.data = x.scheme.data ++ ':' :: x.payload.data := by
  show (x.scheme ++ ":" ++ x.payload).data = _
  rw [string_data_append, string_data_append]
  simp [List.append_assoc]

theorem splitOnceColon_append (sch pay : List Char) (h : ':' ∉ sch) :
    splitOnceColon (sch ++ ':' :: pay) = some (sch, pay) := by
  induction sch with
  | nil => simp [splitOnceColon]
  | cons c rest ih =>
    have hc : c ≠ ':' := fun hc => h (hc ▸ List.mem_cons_self c rest)
    have hr : ':' ∉ rest := fun hm => h (List.mem_cons_of_mem c hm)
    simp [splitOnceColon, hc, ih hr]

theorem fromStr_toText (x : Identity) (h : x.valid) :
    Identity.fromStr x.toText = .ok x := by
  obtain ⟨hne, hcol⟩ := h
  unfold Identity.fromStr
  rw [toText_data, splitOnceColon_append _ _ hcol]
  have hdata : x.scheme.data ≠ [] := by
    intro hd
    exact hne (String.ext (hd.trans rfl))
  simp [List.isEmpty_iff, hdata]

/-! ## Game protocol types (`examples/game/src/protocol.rs`) -/

/-- Rust `enum ItemKind`. -/
inductive ItemKind where
  | sword
  | shield
  | potion
  | key
  | gem
  | torch
deriving DecidableEq, Repr

/-- Rust `ItemKind::is_weapon`: `matches!(self, ItemKind::Sword)`. -/
def ItemKind.is_weapon : ItemKind → Bool
  | .sword => true
  | _ => false

/-- The `{:?}` (Debug) rendering of an `ItemKind`, used in import reports. -/
def ItemKind.debugStr : ItemKind → String
  | .sword => "Sword"
  | .shield => "Shield"
  | .potion => "Potion"
  | .key => "Key"
  | .gem => "Gem"
  | .torch => "Torch"

/-- Rust `struct InventoryItem`. -/
structure InventoryItem where
  kind : ItemKind
  count : Nat
deriving DecidableEq, Repr

/-- Rust `struct WorldItem` (`f32` coordinates modelled over `ℚ`). -/
structure WorldItem where
  id : Nat
  kind : ItemKind
  x : ℚ
  y : ℚ
deriving DecidableEq, Repr

/-- Rust `struct GamePassport`. -/
structure GamePassport where
  identity : Identity
  name : String
  health : Nat
  max_health : Nat
  inventory : List InventoryItem
  origin_zone : String
deriving DecidableEq, Repr

/-- Rust `struct ImportResult`. -/
structure ImportResult where
  accepted_items : List InventoryItem
  rejected_items : List (InventoryItem × String)
  health : Nat
deriving DecidableEq, Repr

/-- Rust `enum GameIntent`. -/
inductive GameIntent where
  | move (dx dy : ℚ)
  | use_item (slot : Nat)
  | pick_up (item_id : Nat)
  | drop (slot : Nat)
  | transfer (destination : String)
deriving DecidableEq, Repr

/-! ## Game world (`examples/game/src/world.rs`) -/

/-- Rust `struct Player` (`f32` coordinates modelled over `ℚ`). -/
structure Player where
  identity : Identity
  name : String
  x : ℚ
  y : ℚ
  health : Nat
  max_health : Nat
  inventory : List InventoryItem
deriving DecidableEq, Repr

/-- Rust `Player::new`. -/
def Player.new (identity : Identity) (name : String) : Player :=
  { identity := identity, name := name, x := 0, y := 0,
    health := 100, max_health := 100, inventory := [] }

/-- Rust `Player::from_passport`. -/
def Player.from_passport (passport : GamePassport) (imp : ImportResult) : Player :=
  { identity := passport.identity, name := passport.name, x := 0, y := 0,
    health := imp.health, max_health := passport.max_health,
    inventory := imp.accepted_items }

/-- Rust `Player::to_passport`. -/
def Player.to_passport (p : Player) (origin_zone : String) : GamePassport :=
  { identity := p.identity, name := p.name, health := p.health,
    max_health := p.max_health, inventory := p.inventory,
    origin_zone := origin_zone }

/-- Rust `f32::clamp(lo, hi)` over `ℚ`. -/
def ratClamp (v lo hi : ℚ) : ℚ :=
  if v < lo then lo else if v > hi then hi else v

/-- Rust `u32::clamp(lo, hi)` over `Nat`. -/
def natClamp (v lo hi : Nat) : Nat :=
  if v < lo then lo else if v > hi then hi else v

/-- Rust `Player::move_by`: add the delta and clamp each coordinate to `[-100, 100]`. -/
def Player.move_by (p : Player) (dx dy : ℚ) : Player :=
  { p with x := ratClamp (p.x + dx) (-100) 100, y := ratClamp (p.y + dy) (-100) 100 }

/-- Rust `HashMap::get` on the player map (association list, first match). -/
def getPlayer : List (Identity × Player) → Identity → Option Player
  | [], _ => none
  | (k, p) :: rest, key => if k = key then some p else getPlayer rest key

/-- Rust `HashMap::insert` (replace the binding of an existing key, else append). -/
def putPlayer : List (Identity × Player) → Identity → Player → List (Identity × Player)
  | [], key, p => [(key, p)]
  | (k, q) :: rest, key, p =>
    if k = key then (k, p) :: rest else (k, q) :: putPlayer rest key p

/-- Rust `HashMap::get_mut` followed by an in-place update (no-op if absent). -/
def modifyPlayer (ps : List (Identity × Player)) (key : Identity) (f : Player → Player) :
    List (Identity × Player) :=
  match ps with
  | [] => []
  | (k, q) :: rest =>
    if k = key then (k, f q) :: rest else (k, q) :: modifyPlayer rest key f

/-- Rust `HashMap::remove` (drop the binding of the key). -/
def delPlayer : List (Identity × Player) → Identity → List (Identity × Player)
  | [], _ => []
  | (k, q) :: rest, key => if k = key then rest else (k, q) :: delPlayer rest key

/-- Rust `struct World`. -/
structure World where
  name : String
  tick : Nat
  players : List (Identity × Player)
  items : List WorldItem
  allow_weapons : Bool
  next_item_id : Nat
deriving DecidableEq, Repr

/-- Rust `World::apply_import_policy`'s inventory loop: push weapons to `rejected`
when `!allow_weapons`, everything else to `accepted`, preserving order. -/
def importSplit (allow_weapons : Bool) :
    List InventoryItem → List InventoryItem × List (InventoryItem × String)
  | [] => ([], [])
  | item :: rest =>
    let (a, r) := importSplit allow_weapons rest
    if !allow_weapons && item.kind.is_weapon then
      (a, (item, "Weapons not allowed in this zone") :: r)
    else
      (item :: a, r)

/-- Rust `World::apply_import_policy`: split the inventory and clamp health to `[1, 100]`. -/
def World.apply_import_policy (w : World) (passport : GamePassport) : ImportResult :=
  let (accepted, rejected) := importSplit w.allow_weapons passport.inventory
  { accepted_items := accepted, rejected_items := rejected,
    health := natClamp passport.health 1 100 }

/-- Rust `World::add_player`: `players.insert(player.identity.clone(), player)`. -/
def World.add_player (w : World) (p : Player) : World :=
  { w with players := putPlayer w.players p.identity p }

/-- Rust `World::remove_player`. -/
def World.remove_player (w : World) (identity : Identity) : World :=
  { w with players := delPlayer w.players identity }

/-! ## Game server (`examples/game/src/server.rs`)

The wire `Transfer` variant carries the passport as `serde_json` bytes
(`passport.to_bytes()`); since that byte encoding is produced by an external
library and is injective on `GamePassport`, the embedding carries the
structured `GamePassport` value itself in the outbound `transfer` variant,
while inbound `auth` passports stay opaque bytes decoded by a `decode`
parameter (mirroring `GamePassport::from_bytes`). -/

/-- Rust `enum WireMessage` of the game server. -/
inductive WireMessage where
  | auth (identity : Identity) (name : String) (passport : Option (List Nat))
  | intent (i : GameIntent)
  | welcome (zone_name : String) (allow_weapons : Bool)
  | transfer (destination : String) (passport : GamePassport)
  | import_report (accepted : List String) (rejected : List String)
  | errorMsg (message : String)
deriving DecidableEq, Repr

/-- An inbound WebSocket frame as the server's loops see it: a `Text` frame
that parses to a `WireMessage`, a `Text` frame `serde_json` cannot parse, or
a non-`Text` frame. -/
inductive Frame where
  | text (m : WireMessage)
  | malformed
  | binary
deriving DecidableEq, Repr

/-- Per-session view in the main loop: the shared world plus the ordered list
of messages this connection has written to its sink. -/
structure Session where
  world : World
  sent : List WireMessage
deriving DecidableEq, Repr

/-- Rust `Vec::iter().position(|i| i.id == item_id)` + `Vec::remove(idx)` combined:
the first item with the id, and the list with it removed, order preserved. -/
def removeItemById : List WorldItem → Nat → Option (WorldItem × List WorldItem)
  | [], _ => none
  | i :: rest, item_id =>
    if i.id = item_id then some (i, rest)
    else (removeItemById rest item_id).map fun p => (p.1, i :: p.2)

/-- Rust `handle_intent`: one `GameIntent` applied to the shared world / sink. -/
def handle_intent (peer : Option String) (identity : Identity) (s : Session) :
    GameIntent → Session
  | .move dx dy =>
    { s with world :=
        { s.world with players :=
            modifyPlayer s.world.players identity (fun p => p.move_by dx dy) } }
  | .pick_up item_id =>
    let w := s.world
    match getPlayer w.players identity with
    | none => s
    | some p =>
      -- `position(|i| i.id == item_id)` followed by `Vec::remove(idx)`
      match removeItemById w.items item_id with
      | none => s
      | some (item, remaining) =>
        -- `((px - item.x)^2 + (py - item.y)^2).sqrt() < 2.0`, embedded squared
        if (p.x - item.x) ^ 2 + (p.y - item.y) ^ 2 < 4 then
          { s with world :=
              { w with items := remaining,
                       players := modifyPlayer w.players identity
                         (fun q => { q with inventory :=
                            q.inventory ++ [{ kind := item.kind, count := 1 }] }) } }
        else s
  | .use_item slot =>
    let w := s.world
    match getPlayer w.players identity with
    | none => s
    | some p =>
      match p.inventory.get? slot with
      | none => s
      | some item =>
        if item.kind = ItemKind.potion then
          { s with world :=
              { w with players :=
                  modifyPlayer w.players identity (fun q =>
                    { q with
                      health := min (q.health + 25) q.max_health,
                      inventory := q.inventory.eraseIdx slot }) } }
        else s
  | .drop slot =>
    let w := s.world
    match getPlayer w.players identity with
    | none => s
    | some p =>
      match p.inventory.get? slot with
      | none => s
      | some item =>
        let ps1 :=
          modifyPlayer w.players identity (fun q =>
            { q with inventory := q.inventory.eraseIdx slot })
        let w1 := { w with players := ps1 }
        { s with world :=
            { w1 with items := w1.items ++
                [{ id := w1.tick, kind := item.kind, x := p.x, y := p.y }] } }
  | .transfer destination =>
    if peer ≠ some destination then
      { s with sent := s.sent ++ [.errorMsg ("Unknown destination: " ++ destination)] }
    else
      match getPlayer s.world.players identity with
      | none => s
      | some p =>
        { s with sent := s.sent ++ [.transfer destination (p.to_passport s.world.name)] }

/-- Result of the game server's auth-wait loop. -/
inductive AuthResult where
  | ok (world : World) (identity : Identity) (player_name : String)
      (sent : List WireMessage)
  | jsonError
  | connClosed
deriving DecidableEq, Repr

/-- The import report sent when a passport decodes (`WireMessage::ImportReport`). -/
def importReport (imp : ImportResult) : WireMessage :=
  .import_report
    (imp.accepted_items.map fun i => i.kind.debugStr)
    (imp.rejected_items.map fun ir => ir.1.kind.debugStr ++ ": " ++ ir.2)

/-- The game server's auth-wait loop (`handle_connection`, "Wait for auth"):
skip non-`Text` frames, fail on an unparseable `Text` frame (`serde_json::from_str` + `?`),
skip parsed non-`Auth` messages, and on `Auth` build the player — through
the import policy when the passport bytes decode, as a fresh player otherwise —
then add it to the world and break with `(identity, player.name)`. -/
def authLoop (decode : List Nat → Option GamePassport) (w : World)
    (sent : List WireMessage) : List Frame → AuthResult
  | [] => .connClosed
  | .malformed :: _ => .jsonError
  | .binary :: rest => authLoop decode w sent rest
  | .text m :: rest =>
    match m with
    | .auth identity name passport =>
      match passport with
      | some bytes =>
        match decode bytes with
        | some p =>
          let imp := w.apply_import_policy p
          let player := Player.from_passport p imp
          .ok (w.add_player player) identity player.name (sent ++ [importReport imp])
        | none =>
          let player := Player.new identity name
          .ok (w.add_player player) identity player.name sent
      | none =>
        let player := Player.new identity name
        .ok (w.add_player player) identity player.name sent
    | _ => authLoop decode w sent rest

/-- One iteration of the game server's post-auth main loop, client-frame arm:
only a `Text` frame parsing to `Intent` reaches `handle_intent`; unparseable
text is skipped (`Err(_) => continue`), other wire messages and non-`Text`
frames fall through with no effect. -/
def liveStep (peer : Option String) (identity : Identity) (s : Session) :
    Frame → Session
  | .text (.intent i) => handle_intent peer identity s i
  | _ => s

/-- The post-auth main loop over a finite list of inbound client frames
(the concurrent tick-broadcast arm only writes snapshots to the sink and
never touches the world; it is omitted). -/
def liveLoop (peer : Option String) (identity : Identity) :
    Session → List Frame → Session
  | s, [] => s
  | s, f :: rest => liveLoop peer identity (liveStep peer identity s f) rest

/-! ## Chat server auth (`examples/chat/src/server.rs`, `examples/chat/src/protocol.rs`) -/

/-- Rust `struct ChatPassport`. -/
structure ChatPassport where
  name : String
  origin : String
deriving DecidableEq, Repr

/-- The chat server's auth-time display-name choice (`handle_connection`):
a decodable passport contributes its `name`; an undecodable or absent
passport falls back to `identity.payload()`. -/
def chatDisplayName (decode : List Nat → Option ChatPassport) (identity : Identity) :
    Option (List Nat) → String
  | some bytes =>
    match decode bytes with
    | some p => p.name
    | none => identity.payload
  | none => identity.payload

/-! ## Core envelope types and their serde JSON shape
(`crates/interconnect-core/src/{message,transfer,lib}.rs`)

The JSON value model and the serializers below are transcribed from the
`#[derive(Serialize, Deserialize)]` + `#[serde(...)]` attributes:
`Identity` has `#[serde(try_from = "String", into = "String")]`, so it
serializes via `From<Identity> for String` (its `Display` form) and
deserializes via `TryFrom<String>` (its `FromStr` parse); both message enums
have `#[serde(tag = "type", rename_all = "snake_case")]` (internally-tagged
objects); `Vec<u8>` serializes as a JSON array of numbers and `Option` as
the value or `null`. -/

/-- A JSON value (numbers restricted to the integers the claims exercise). -/
inductive Json where
  | null
  | bool (b : Bool)
  | num (n : Int)
  | str (s : String)
  | arr (xs : List Json)
  | obj (fields : List (String × Json))

/-- Look up a field named `"type"` in a JSON object's field list, returning
its value when that value is a string. -/
def tagOfFields : List (String × Json) → Option String
  | [] => none
  | (k, v) :: rest =>
    if k = "type" then
      match v with
      | .str s => some s
      | _ => none
    else tagOfFields rest

/-- The `"type"` discriminator field of a JSON object, if it is a string. -/
def Json.tagField : Json → Option String
  | .obj fields => tagOfFields fields
  | _ => none

/-- Rust `Serialize for Identity` (via `into = "String"` and `Display`). -/
def Identity.toJson (x : Identity) : Json :=
  .str x.toText

/-- Rust `Deserialize for Identity` (via `try_from = "String"` and `FromStr`);
a non-string JSON value is a serde type error, modelled as `none`. -/
def Identity.fromJson : Json → Option Identity
  | .str s =>
    match Identity.fromStr s with
    | .ok x => some x
    | .error _ => none
  | _ => none

/-- Rust `Vec<u8>` as serde_json renders it: an array of numbers. -/
def bytesToJson (bs : List Nat) : Json :=
  .arr (bs.map fun b => .num b)

/-- Rust `Option<Vec<u8>>`: the value or `null`. -/
def optBytesToJson : Option (List Nat) → Json
  | none => .null
  | some bs => bytesToJson bs

/-- Rust `struct Passport` (`crates/interconnect-core/src/transfer.rs`). -/
structure Passport where
  identity : Identity
  data : List Nat
  signature : Option (List Nat)
deriving DecidableEq, Repr

/-- Rust `Passport::new`. -/
def Passport.new (identity : Identity) (data : List Nat) : Passport :=
  { identity := identity, data := data, signature := none }

/-- Rust `Passport::signed`. -/
def Passport.signed (identity : Identity) (data : List Nat) (signature : List Nat) : Passport :=
  { identity := identity, data := data, signature := some signature }

/-- Rust `struct Transfer` (`crates/interconnect-core/src/transfer.rs`). -/
structure Transfer where
  destination : String
  passport : Passport
deriving DecidableEq, Repr

/-- Rust `struct Manifest` (`crates/interconnect-core/src/lib.rs`); `metadata` is
an open `serde_json::Value`. -/
structure Manifest where
  identity : Identity
  name : String
  substrate : Option String
  metadata : Json

/-- Rust `enum ConnectionState` (`crates/interconnect-core/src/lib.rs`). -/
inductive ConnectionState where
  | connecting
  | syncing
  | live
  | ghost
deriving DecidableEq, Repr

/-- Rust `enum ClientMessage<I>` (`crates/interconnect-core/src/message.rs`). -/
inductive ClientMessage (I : Type) where
  | auth (identity : Identity) (passport : Option (List Nat))
  | intent (i : I)
  | ack (seq : Nat)
  | request_transfer (destination : String)

/-- Rust `enum ServerMessage<S>` (`crates/interconnect-core/src/message.rs`). -/
inductive ServerMessage (S : Type) where
  | manifest (m : Manifest)
  | snapshot (seq : Nat) (data : S)
  | transfer (t : Transfer)
  | errorMsg (code : String) (message : String)

/-- The serde field list of a `Passport` value. -/
def Passport.jsonFields (p : Passport) : List (String × Json) :=
  [("identity", p.identity.toJson), ("data", bytesToJson p.data),
   ("signature", optBytesToJson p.signature)]

/-- The serde field list of a `Transfer` value. -/
def Transfer.jsonFields (t : Transfer) : List (String × Json) :=
  [("destination", .str t.destination), ("passport", .obj t.passport.jsonFields)]

/-- The serde field list of a `Manifest` value. -/
def Manifest.jsonFields (m : Manifest) : List (String × Json) :=
  [("identity", m.identity.toJson), ("name", .str m.name),
   ("substrate", match m.substrate with | none => .null | some s => .str s),
   ("metadata", m.metadata)]

/-- Rust `Serialize for ClientMessage<I>` under
`#[serde(tag = "type", rename_all = "snake_case")]`: an internally-tagged
object whose `"type"` field names the variant in snake_case. The generic
payload `I` of the newtype variant `Intent(I)` contributes its own object
fields, supplied as the parameter `iFields`. -/
def clientMessageToJson {I : Type} (iFields : I → List (String × Json)) :
    ClientMessage I → Json
  | .auth identity passport =>
    .obj [("type", .str "auth"), ("identity", identity.toJson),
          ("passport", optBytesToJson passport)]
  | .intent i => .obj (("type", .str "intent") :: iFields i)
  | .ack seq => .obj [("type", .str "ack"), ("seq", .num seq)]
  | .request_transfer destination =>
    .obj [("type", .str "request_transfer"), ("destination", .str destination)]

/-- Rust `Serialize for ServerMessage<S>` under the same internally-tagged layout;
the generic snapshot payload serializer is the parameter `sToJson`. -/
def serverMessageToJson {S : Type} (sToJson : S → Json) : ServerMessage S → Json
  | .manifest m => .obj (("type", .str "manifest") :: m.jsonFields)
  | .snapshot seq data =>
    .obj [("type", .str "snapshot"), ("seq", .num seq), ("data", sToJson data)]
  | .transfer t => .obj (("type", .str "transfer") :: t.jsonFields)
  | .errorMsg code message =>
    .obj [("type", .str "error"), ("code", .str code), ("message", .str message)]

/-- The snake_case discriminator serde assigns to each `ClientMessage` variant. -/
def clientTag {I : Type} : ClientMessage I → String
  | .auth _ _ => "auth"
  | .intent _ => "intent"
  | .ack _ => "ack"
  | .request_transfer _ => "request_transfer"

/-- The snake_case discriminator serde assigns to each `ServerMessage` variant. -/
def serverTag {S : Type} : ServerMessage S → String
  | .manifest _ => "manifest"
  | .snapshot _ _ => "snapshot"
  | .transfer _ => "transfer"
  | .errorMsg _ _ => "error"

/-! ## Supporting lemmas -/

/-- The import-policy loop is a filter split: non-admitted (weapon while
weapons are disallowed) items go to `rejected` with the fixed reason string,
everything else to `accepted`, both in inventory order. -/
theorem importSplit_eq (aw : Bool) (l : List InventoryItem) :
    importSplit aw l =
      (l.filter fun i => !(!aw && i.kind.is_weapon),
       (l.filter fun i => !aw && i.kind.is_weapon).map
         fun i => (i, "Weapons not allowed in this zone")) := by
  induction l with
  | nil => rfl
  | cons item rest ih =>
    cases aw <;> cases hiw : item.kind.is_weapon <;>
      simp [importSplit, ih, List.filter_cons, hiw]

/-- The player map is well-keyed: every binding's value records the key as its
identity. `World::add_player` establishes this (it keys each player by
`player.identity`). -/
def playersWellKeyed (ps : List (Identity × Player)) : Prop :=
  ∀ k q, getPlayer ps k = some q → q.identity = k

/-- Lookup after insert: the inserted key maps to the new player, every other
key is unaffected (`HashMap::insert` / `HashMap::get` semantics). -/
theorem getPlayer_putPlayer (ps : List (Identity × Player)) (key : Identity)
    (p : Player) (k : Identity) :
    getPlayer (putPlayer ps key p) k = if k = key then some p else getPlayer ps k := by
  induction ps with
  | nil =>
    by_cases hk : key = k
    · simp [putPlayer, getPlayer, hk]
    · have hk' : ¬k = key := fun h => hk h.symm
      simp [putPlayer, getPlayer, hk, hk']
  | cons kv rest ih =>
    obtain ⟨k0, q0⟩ := kv
    by_cases h0 : k0 = key
    · subst h0
      by_cases hk : k0 = k
      · simp [putPlayer, getPlayer, hk]
      · have hk' : ¬k = k0 := fun h => hk h.symm
        simp [putPlayer, getPlayer, hk, hk']
    · by_cases hk : k0 = k
      · subst hk
        have h0' : ¬k0 = key := h0
        have h0'' : ¬k0 = key := fun h => h0 h
        simp [putPlayer, getPlayer, h0, h0'']
      · simp [putPlayer, getPlayer, h0, hk, ih]

/-- Rust `putPlayer` (the embedding of `HashMap::insert` as `add_player` uses it)
preserves well-keyedness, so `World::add_player` keeps the map well-keyed. -/
theorem putPlayer_wellKeyed (ps : List (Identity × Player)) (p : Player)
    (h : playersWellKeyed ps) : playersWellKeyed (putPlayer ps p.identity p) := by
  intro k q hq
  rw [getPlayer_putPlayer] at hq
  by_cases hk : k = p.identity
  · simp [hk] at hq
    rw [← hq]
    exact hk.symm
  · simp [hk] at hq
    exact h k q hq

/-! ## Claim theorems -/

/-- C1 (counterexample): the claim quantifies over identities whose scheme is
merely non-empty, but `Identity::new("a:b", "c")` has a non-empty scheme and
`parse(format(x))` yields the different identity `("a", "b:c")`, so
`parse(format(x)) == x` fails for it. -/
theorem c1_roundtrip_counterexample :
    (Identity.new "a:b" "c").scheme ≠ "" ∧
    Identity.fromStr (Identity.new "a:b" "c").toText = .ok (Identity.new "a" "b:c") ∧
    Identity.new "a" "b:c" ≠ Identity.new "a:b" "c" := by
  refine ⟨by decide, by decide, by decide⟩

/-- C1 (amended): for every identity whose scheme is non-empty *and contains
no `':'`*, parsing the formatted canonical form yields the identity back, and
the formatted text's unique leading `':'`-split recovers exactly the scheme
and payload. -/
theorem c1_roundtrip (x : Identity) (h : x.valid) :
    Identity.fromStr x.toText = .ok x ∧
    splitOnceColon x.toText.data = some (x.scheme.data, x.payload.data) := by
  refine ⟨fromStr_toText x h, ?_⟩
  rw [toText_data]
  exact splitOnceColon_append _ _ h.2

/-- C1 (witness): the round-trip theorem applied to `local:alice`. -/
theorem c1_roundtrip_witness :
    Identity.fromStr (Identity.new "local" "alice").toText = .ok (Identity.new "local" "alice") ∧
    splitOnceColon (Identity.new "local" "alice").toText.data =
      some ((Identity.new "local" "alice").scheme.data, (Identity.new "local" "alice").payload.data) :=
  c1_roundtrip (Identity.new "local" "alice") (by decide)

/-- C7: parsing `""` and `"noseparator"` fails with the missing-separator
variant, parsing `":payload"` fails with the empty-scheme variant, and the two
error variants are distinct. -/
theorem c7_parse_errors :
    Identity.fromStr "" = .error (.missingColon "") ∧
    Identity.fromStr "noseparator" = .error (.missingColon "noseparator") ∧
    Identity.fromStr ":payload" = .error .emptyScheme ∧
    IdentityParseError.missingColon "" ≠ IdentityParseError.emptyScheme ∧
    IdentityParseError.missingColon "noseparator" ≠ IdentityParseError.emptyScheme := by
  refine ⟨by decide, by decide, by decide, by decide, by decide⟩

/-- C9: `Identity::new` stores its arguments without any validation, and the
parse/format round-trip does not extend to every identity it can construct:
an empty scheme formats to `":p"`, which fails to parse, and a scheme
containing `':'` formats to text that parses to a *different* identity. -/
theorem c9_new_no_validation :
    (∀ s p : String, Identity.new s p = { scheme := s, payload := p }) ∧
    Identity.fromStr (Identity.new "" "p").toText = .error .emptyScheme ∧
    Identity.fromStr (Identity.new "x:y" "z").toText = .ok (Identity.new "x" "y:z") ∧
    Identity.new "x" "y:z" ≠ Identity.new "x:y" "z" := by
  refine ⟨fun s p => rfl, by decide, by decide, by decide⟩

/-- C8 (counterexample): the serialization round-trip does not hold for every
constructible `Identity`: `Identity::new("", "p")` serializes to the JSON
string `":p"`, which fails to deserialize (empty scheme). -/
theorem c8_serde_counterexample :
    Identity.toJson (Identity.new "" "p") = .str ":p" ∧
    Identity.fromJson (Identity.toJson (Identity.new "" "p")) = none := by
  exact ⟨rfl, rfl⟩

/-- C8 (amended): a *valid* identity (non-empty scheme, no `':'` in the
scheme) serializes as its canonical `"scheme:payload"` JSON string — not as a
nested object — and deserializing that string reproduces it; and for every
application payload serializer, `ClientMessage<I>` and `ServerMessage<S>`
serialize as JSON objects whose string `"type"` field names the variant
(snake_case). -/
theorem c8_wire_format {I S : Type} (iFields : I → List (String × Json))
    (sToJson : S → Json) (x : Identity) (hx : x.valid)
    (m : ClientMessage I) (sm : ServerMessage S) :
    Identity.toJson x = .str x.toText ∧
    Identity.fromJson (Identity.toJson x) = some x ∧
    (clientMessageToJson iFields m).tagField = some (clientTag m) ∧
    (serverMessageToJson sToJson sm).tagField = some (serverTag sm) := by
  refine ⟨rfl, ?_, ?_, ?_⟩
  · show Identity.fromJson (.str x.toText) = some x
    simp [Identity.fromJson, fromStr_toText x hx]
  · cases m <;> rfl
  · cases sm <;> rfl

/-- C8 (witness): the wire-format theorem applied to the identity
`local:alice`, a `RequestTransfer` client message and an `Error` server
message, with trivial payload serializers. -/
theorem c8_wire_format_witness :
    Identity.toJson (Identity.new "local" "alice") = .str (Identity.new "local" "alice").toText ∧
    Identity.fromJson (Identity.toJson (Identity.new "local" "alice")) =
      some (Identity.new "local" "alice") ∧
    (clientMessageToJson (fun _ : Unit => []) (.request_transfer "ws://b")).tagField =
      some (clientTag (I := Unit) (.request_transfer "ws://b")) ∧
    (serverMessageToJson (fun _ : Unit => .null) (.errorMsg "bad" "oops")).tagField =
      some (serverTag (S := Unit) (.errorMsg "bad" "oops")) :=
  c8_wire_format (fun _ : Unit => []) (fun _ : Unit => .null)
    (Identity.new "local" "alice") (by decide)
    (.request_transfer "ws://b") (.errorMsg "bad" "oops")

/-- C2: when the passport bytes fail to decode, both example servers admit
the bearer exactly as if it had authenticated with no passport: the game
server builds `Player::new(identity, name)` and the session reaches the
authenticated phase normally, and the chat server falls back to the
identity's payload as display name. -/
theorem c2_decode_failure_degrades
    (decode : List Nat → Option GamePassport) (cdecode : List Nat → Option ChatPassport)
    (w : World) (identity : Identity) (name : String) (bytes : List Nat)
    (sent : List WireMessage) (rest : List Frame)
    (hg : decode bytes = none) (hc : cdecode bytes = none) :
    authLoop decode w sent (.text (.auth identity name (some bytes)) :: rest) =
      authLoop decode w sent (.text (.auth identity name none) :: rest) ∧
    authLoop decode w sent (.text (.auth identity name (some bytes)) :: rest) =
      .ok (w.add_player (Player.new identity name)) identity name sent ∧
    chatDisplayName cdecode identity (some bytes) =
      chatDisplayName cdecode identity none := by
  refine ⟨?_, ?_, ?_⟩ <;> simp [authLoop, chatDisplayName, hg, hc, Player.new]

/-- C2 (witness): the degradation theorem at a concrete world, identity and
undecodable byte string, with decoders that reject everything. -/
theorem c2_decode_failure_degrades_witness :
    authLoop (fun _ => none)
        { name := "alpha", tick := 0, players := [], items := [],
          allow_weapons := true, next_item_id := 1 } []
        [.text (.auth (Identity.new "local" "dana") "dana" (some [0, 1, 2]))] =
      authLoop (fun _ => none)
        { name := "alpha", tick := 0, players := [], items := [],
          allow_weapons := true, next_item_id := 1 } []
        [.text (.auth (Identity.new "local" "dana") "dana" none)] ∧
    authLoop (fun _ => none)
        { name := "alpha", tick := 0, players := [], items := [],
          allow_weapons := true, next_item_id := 1 } []
        [.text (.auth (Identity.new "local" "dana") "dana" (some [0, 1, 2]))] =
      .ok (World.add_player
            { name := "alpha", tick := 0, players := [], items := [],
              allow_weapons := true, next_item_id := 1 }
            (Player.new (Identity.new "local" "dana") "dana"))
        (Identity.new "local" "dana") "dana" [] ∧
    chatDisplayName (fun _ => none) (Identity.new "local" "dana") (some [0, 1, 2]) =
      chatDisplayName (fun _ => none) (Identity.new "local" "dana") none :=
  c2_decode_failure_degrades (fun _ => none) (fun _ => none)
    { name := "alpha", tick := 0, players := [], items := [],
      allow_weapons := true, next_item_id := 1 }
    (Identity.new "local" "dana") "dana" [0, 1, 2] [] [] rfl rfl

/-- Concrete session data for settling C3: a world holding one player,
keyed — as `add_player` always keys — by the player's own identity. -/
def c3Id : Identity := Identity.new "local" "bob"

def c3Player : Player := Player.new c3Id "bob"

def c3World : World :=
  { name := "alpha", tick := 0, players := [(c3Id, c3Player)], items := [],
    allow_weapons := true, next_item_id := 1 }

/-- C3 (counterexample): the `RequestTransfer` handler emits the `Transfer`
but does *not* transition the session to Ghost: the session state is
untouched apart from the sink, and the very next `Move` intent still goes
through `handle_intent` and changes the shared world — so the session did
not become the read-only Ghost the claim describes. -/
theorem c3_no_ghost_transition_counterexample :
    (handle_intent (some "ws://beta") c3Id ⟨c3World, []⟩ (.transfer "ws://beta")).sent =
      [.transfer "ws://beta" (c3Player.to_passport "alpha")] ∧
    (handle_intent (some "ws://beta") c3Id ⟨c3World, []⟩ (.transfer "ws://beta")).world =
      c3World ∧
    (handle_intent (some "ws://beta") c3Id
        (handle_intent (some "ws://beta") c3Id ⟨c3World, []⟩ (.transfer "ws://beta"))
        (.move 2 0)).world ≠ c3World := by
  refine ⟨by decide, by decide, ?_⟩
  simp [handle_intent, c3World, c3Id, c3Player, Player.new, getPlayer, modifyPlayer,
    Player.move_by, ratClamp]
  norm_num

/-- C3 (amended): when a session whose identity is present in the (well-keyed)
player map sends `RequestTransfer` to the known destination, the server emits
exactly one `Transfer` message, whose passport records the session's
authenticated identity; the world is untouched and no Live→Ghost transition
exists (the example server keeps no connection state). -/
theorem c3_transfer_emits_one (w : World) (sent : List WireMessage)
    (identity : Identity) (p : Player) (dest : String)
    (hk : playersWellKeyed w.players)
    (hp : getPlayer w.players identity = some p) :
    handle_intent (some dest) identity ⟨w, sent⟩ (.transfer dest) =
      ⟨w, sent ++ [.transfer dest (p.to_passport w.name)]⟩ ∧
    (p.to_passport w.name).identity = identity := by
  constructor
  · simp [handle_intent, hp]
  · exact hk identity p hp

/-- C3 (witness): the transfer theorem at the concrete one-player world. -/
theorem c3_transfer_emits_one_witness :
    handle_intent (some "ws://beta") c3Id ⟨c3World, []⟩ (.transfer "ws://beta") =
      ⟨c3World, [] ++ [.transfer "ws://beta" (c3Player.to_passport "alpha")]⟩ ∧
    (c3Player.to_passport "alpha").identity = c3Id :=
  c3_transfer_emits_one c3World [] c3Id c3Player "ws://beta"
    (putPlayer_wellKeyed [] c3Player (fun k q h => by simp [getPlayer] at h))
    (by decide)

/-- Concrete session data for settling C4. -/
def c4Id : Identity := Identity.new "local" "alice"

def c4Player : Player := Player.new c4Id "alice"

def c4World : World :=
  { name := "zoneA", tick := 0, players := [(c4Id, c4Player)], items := [],
    allow_weapons := true, next_item_id := 1 }

/-- C4 (code evaluated at the failing input): a session emits its `Transfer`
(for `RequestTransfer` to the known peer) and then receives `Move{dx:1,dy:0}`;
the main loop still applies the intent and the shared world changes — the
player's `x` moves from 0 to 1 — contradicting the claim (and §4.4 of the
spec) that no `Intent` received after the `Transfer` mutates shared state. -/
theorem c4_intent_after_transfer_mutates :
    (liveLoop (some "ws://beta") c4Id ⟨c4World, []⟩
        [.text (.intent (.transfer "ws://beta"))]).sent =
      [.transfer "ws://beta" (c4Player.to_passport "zoneA")] ∧
    getPlayer (liveLoop (some "ws://beta") c4Id ⟨c4World, []⟩
        [.text (.intent (.transfer "ws://beta")), .text (.intent (.move 1 0))]).world.players
        c4Id =
      some { c4Player with x := 1 } ∧
    ({ c4Player with x := 1 } : Player) ≠ c4Player := by
  refine ⟨by decide, ?_, ?_⟩
  · simp [liveLoop, liveStep, handle_intent, c4World, c4Id, c4Player, Player.new, getPlayer,
      modifyPlayer, Player.move_by, ratClamp]
    norm_num
  · simp [c4Player, Player.new]

/-- Concrete session data for settling C5. -/
def c5Id : Identity := Identity.new "local" "carol"

def c5World : World :=
  { name := "zoneC", tick := 0, players := [], items := [],
    allow_weapons := true, next_item_id := 1 }

/-- C5 (counterexample): a session that sends an `Intent` while still
Connecting is *not* terminated: the auth loop silently skips the non-`Auth`
message and the session still authenticates on the following `Auth`, reaching
the post-auth (Syncing) phase the claim says it can never reach. -/
theorem c5_nonauth_not_fatal_counterexample :
    authLoop (fun _ => none) c5World []
        [.text (.intent (.move 1 0)), .text (.auth c5Id "carol" none)] =
      .ok (c5World.add_player (Player.new c5Id "carol")) c5Id "carol" [] := by
  decide

/-- C5 (amended): while Connecting, only `Auth` is acted on — any other
well-formed message is silently ignored and the session simply keeps waiting
(it is not a session-terminating protocol violation); what does end the
session before Syncing is an unparseable text frame (`serde_json` error) or
the stream closing. -/
theorem c5_connecting_ignores_nonauth (decode : List Nat → Option GamePassport)
    (w : World) (sent : List WireMessage) (m : WireMessage) (rest : List Frame)
    (hm : ∀ identity name passport, m ≠ .auth identity name passport) :
    authLoop decode w sent (.text m :: rest) = authLoop decode w sent rest ∧
    authLoop decode w sent (.malformed :: rest) = .jsonError ∧
    authLoop decode w sent [] = .connClosed := by
  refine ⟨?_, rfl, rfl⟩
  cases m with
  | auth i n p => exact absurd rfl (hm i n p)
  | intent _ => rfl
  | welcome _ _ => rfl
  | transfer _ _ => rfl
  | import_report _ _ => rfl
  | errorMsg _ => rfl

/-- C5 (witness): the amended behavior at a concrete non-`Auth` message. -/
theorem c5_connecting_ignores_nonauth_witness :
    authLoop (fun _ => none) c5World [] [.text (.intent (.move 1 0))] =
      authLoop (fun _ => none) c5World [] [] ∧
    authLoop (fun _ => none) c5World [] [.malformed] = .jsonError ∧
    authLoop (fun _ => none) c5World [] [] = .connClosed :=
  c5_connecting_ignores_nonauth (fun _ => none) c5World []
    (.intent (.move 1 0)) []
    (fun _ _ _ h => WireMessage.noConfusion h)

/-- Concrete import-policy data for settling C6: a weapons-disallowing world
and passports carrying a sword and a potion at extreme health values. -/
def c6World : World :=
  { name := "the cave", tick := 0, players := [], items := [],
    allow_weapons := false, next_item_id := 1 }

def c6Sword : InventoryItem := { kind := .sword, count := 1 }

def c6Potion : InventoryItem := { kind := .potion, count := 2 }

def c6PassportLow : GamePassport :=
  { identity := Identity.new "local" "eve", name := "eve", health := 0,
    max_health := 100, inventory := [c6Sword, c6Potion], origin_zone := "zoneA" }

def c6PassportHigh : GamePassport :=
  { identity := Identity.new "local" "eve", name := "eve", health := 500,
    max_health := 100, inventory := [c6Sword, c6Potion], origin_zone := "zoneA" }

/-- C6 (counterexample): the sword *is* rejected, but the reason recorded in
`rejected_items` is the literal `"Weapons not allowed in this zone"`, not the
`"weapons not allowed"` the claim states. -/
theorem c6_reason_counterexample :
    (c6World.apply_import_policy c6PassportLow).rejected_items =
      [(c6Sword, "Weapons not allowed in this zone")] ∧
    ∀ r ∈ (c6World.apply_import_policy c6PassportLow).rejected_items,
      r.2 ≠ "weapons not allowed" := by
  refine ⟨by decide, by decide⟩

/-- C6 (amended): in a zone with `allow_weapons = false` the import policy
rejects exactly the weapon (Sword) items, each reported in `rejected_items`
with reason `"Weapons not allowed in this zone"`, accepts exactly the
non-weapon items, and the resulting health is the transmitted health clamped
into `[1, 100]`. -/
theorem c6_import_policy (w : World) (p : GamePassport)
    (hw : w.allow_weapons = false) :
    (w.apply_import_policy p).rejected_items =
      (p.inventory.filter fun i => i.kind.is_weapon).map
        (fun i => (i, "Weapons not allowed in this zone")) ∧
    (w.apply_import_policy p).accepted_items =
      p.inventory.filter (fun i => !i.kind.is_weapon) ∧
    (w.apply_import_policy p).health = natClamp p.health 1 100 := by
  simp [World.apply_import_policy, importSplit_eq, hw]

/-- C6 (witness): the amended policy at the concrete zone and passports:
the sword is rejected with the actual reason string, the potion accepted,
health 0 clamps to 1 and health 500 clamps to 100. -/
theorem c6_import_policy_witness :
    ((c6World.apply_import_policy c6PassportLow).rejected_items =
      (c6PassportLow.inventory.filter fun i => i.kind.is_weapon).map
        (fun i => (i, "Weapons not allowed in this zone")) ∧
    (c6World.apply_import_policy c6PassportLow).accepted_items =
      c6PassportLow.inventory.filter (fun i => !i.kind.is_weapon) ∧
    (c6World.apply_import_policy c6PassportLow).health =
      natClamp c6PassportLow.health 1 100) ∧
    (c6World.apply_import_policy c6PassportLow).health = 1 ∧
    (c6World.apply_import_policy c6PassportHigh).health = 100 ∧
    (c6World.apply_import_policy c6PassportLow).accepted_items = [c6Potion] :=
  ⟨c6_import_policy c6World c6PassportLow rfl, by decide, by decide, by decide⟩

/-- C10: `apply_import_policy` partitions the passport inventory — the
accepted items together with the first components of the rejected items are a
permutation of the inventory (each item exactly once), and each of the two
lists is a sublist of the inventory (original relative order preserved).
The embedding of `apply_import_policy` is a pure function of `(w, passport)`
returning only an `ImportResult`, mirroring the `&self` receiver that cannot
mutate the world. -/
theorem c10_import_partition (w : World) (p : GamePassport) :
    ((w.apply_import_policy p).accepted_items ++
      (w.apply_import_policy p).rejected_items.map Prod.fst).Perm p.inventory ∧
    (w.apply_import_policy p).accepted_items.Sublist p.inventory ∧
    ((w.apply_import_policy p).rejected_items.map Prod.fst).Sublist p.inventory := by
  have hsplit := importSplit_eq w.allow_weapons p.inventory
  have hmap : (Prod.fst ∘ fun i : InventoryItem => (i, "Weapons not allowed in this zone")) = id :=
    rfl
  refine ⟨?_, ?_, ?_⟩
  · simp only [World.apply_import_policy, hsplit, List.map_map, hmap, List.map_id]
    have key := List.filter_append_perm
      (fun i : InventoryItem => !(!w.allow_weapons && i.kind.is_weapon)) p.inventory
    simpa [Bool.not_not] using key
  · simp only [World.apply_import_policy, hsplit]
    exact List.filter_sublist p.inventory
  · simp only [World.apply_import_policy, hsplit, List.map_map, hmap, List.map_id]
    exact List.filter_sublist p.inventory

end Interconnect
